import Mathlib

/-!
Shallow embedding of `src/demo.c` — a low-latency RTSP/H.264 viewer built on
GStreamer and GTK.  The embedding models the `CustomData` aggregate, the bus
and signal callbacks (`slider_cb`, `error_cb`, `eos_cb`, `handoff_cb`,
`state_changed_cb`, `qos_cb`, `tell_window`, `rtsp_pad_added_cb`), pipeline
construction (`create_pipeline`) and the startup sequence in `main`.

Calls into GStreamer that mutate the pipeline (`gst_element_set_state`,
`gst_element_seek_simple`, `gst_video_overlay_set_window_handle`,
`gst_element_link_pads`) are modelled as emitted `Command` values; `g_print` /
`g_printerr` output is modelled as structured `LogLine` values.  Return values
of framework queries (`gst_element_query_position`, the result of
`gst_element_set_state (PLAYING)`, element availability, link success) are
passed in as parameters, since they are environment responses.

Machine integers: `GstClockTime` (`guint64`) is modelled as `Nat`,
`gint64` as `Int`; where the C code mixes them (`GST_CLOCK_DIFF`) the
unsigned wrap-around modulo `2 ^ 64` and the reinterpretation as a signed
64-bit value are modelled explicitly.  C integer division (`diff / 1000000`)
truncates toward zero, hence `Int.tdiv`.
-/

/-- The GStreamer element states, in their numeric order
(`GST_STATE_VOID_PENDING = 0` … `GST_STATE_PLAYING = 4`). -/
inductive GstState where
  | VoidPending
  | Null
  | Ready
  | Paused
  | Playing
deriving DecidableEq, Repr

/-- Numeric value of a `GstState`, used by the C code's `<` comparisons
(`data->state < GST_STATE_PAUSED`). -/
def GstState.toNat : GstState → Nat
  | .VoidPending => 0
  | .Null => 1
  | .Ready => 2
  | .Paused => 3
  | .Playing => 4

/-- Result of `gst_element_set_state` (`GstStateChangeReturn`). -/
inductive StateChangeReturn where
  | Failure
  | Success
  | Async
  | NoPreroll
deriving DecidableEq, Repr

/-- The `CustomData` aggregate of `demo.c` (the GTK widget pointers are not
modelled; `duration` is `gint64`, `window_handle` is `guintptr`, `last_pts`
is `GstClockTime`). -/
structure CustomData where
  is_live : Bool
  state : GstState
  duration : Int
  window_handle : Nat
  last_pts : Nat
deriving DecidableEq, Repr

/-- `main` zeroes the structure with `memset` (state `0 = VOID_PENDING`,
`is_live = FALSE`, `last_pts = 0`) and then sets
`duration = GST_CLOCK_TIME_NONE` (read back through `gint64` as `-1`). -/
def initial_data : CustomData :=
  { is_live := false, state := .VoidPending, duration := -1,
    window_handle := 0, last_pts := 0 }

/-- `GST_SECOND` in nanoseconds. -/
def gstSecond : Nat := 1000000000

/-- Truncation of a rational toward zero, the effect of C's `(gint64)` cast
applied to a non-integral `gdouble` product. -/
def ratTrunc (q : ℚ) : Int := Int.tdiv q.num (q.den : Int)

/-- A call from a handler into the GStreamer API that affects the pipeline.
`postErrorMessage` (posting an error on the bus, `GST_ELEMENT_ERROR` style)
is listed because handlers could do it; none of the handlers in `demo.c`
ever emits it. -/
inductive Command where
  | setState (target : GstState)
  | seekSimple (position : Int)
  | setWindowHandle (src : String) (handle : Nat)
  | linkPads (padName : String)
  | postErrorMessage (text : String)
deriving DecidableEq, Repr

/-- One line of console diagnostics (`g_print` / `g_printerr` / `printf`). -/
inductive LogLine where
  | errorReceived (src message : String)
  | errorDebug (info : String)
  | eosReached
  | stateSet (s : GstState)
  | qosInfo (running_time stream_time timestamp duration processed dropped : Nat)
      (jitter : Int)
  | padLinkFailed
deriving DecidableEq, Repr

/-- What a bus/signal handler produces: the updated `CustomData`, the
GStreamer calls it made, and the console lines it printed. -/
structure HandlerResult where
  data : CustomData
  cmds : List Command
  logs : List LogLine
deriving DecidableEq, Repr

/-- The pipeline state after the GStreamer core has executed a list of
commands: `gst_element_set_state target` brings the pipeline to `target`
(for the downward transitions requested by the handlers modelled here the
change completes before the call returns); the other calls leave the
pipeline state alone. -/
def execCommands (cmds : List Command) (ps : GstState) : GstState :=
  cmds.foldl (fun s c => match c with | .setState t => t | _ => s) ps

/-- `play_cb`: `gst_element_set_state (pipeline, GST_STATE_PLAYING)`. -/
def play_cb (d : CustomData) : HandlerResult :=
  ⟨d, [.setState .Playing], []⟩

/-- `pause_cb`: `gst_element_set_state (pipeline, GST_STATE_PAUSED)`. -/
def pause_cb (d : CustomData) : HandlerResult :=
  ⟨d, [.setState .Paused], []⟩

/-- `stop_cb`: `gst_element_set_state (pipeline, GST_STATE_READY)`. -/
def stop_cb (d : CustomData) : HandlerResult :=
  ⟨d, [.setState .Ready], []⟩

/-- `realize_cb`: captures the native window handle into
`data->window_handle`. -/
def realize_cb (handle : Nat) (d : CustomData) : CustomData :=
  { d with window_handle := handle }

/-- `slider_cb`: reads the slider value and unconditionally issues
`gst_element_seek_simple (pipeline, GST_FORMAT_TIME,
GST_SEEK_FLAG_FLUSH | GST_SEEK_FLAG_KEY_UNIT, (gint64)(value * GST_SECOND))`.
There is no check of `data->is_live` anywhere in the handler. -/
def slider_cb (value : ℚ) (d : CustomData) : HandlerResult :=
  ⟨d, [.seekSimple (ratTrunc (value * ((gstSecond : Nat) : ℚ)))], []⟩

/-- The payload of an error bus message:
source element name, `err->message`, and the (possibly NULL) debug string. -/
structure ErrorMsg where
  src : String
  message : String
  debugInfo : Option String
deriving DecidableEq, Repr

/-- `error_cb`: prints the error and debug details (`"none"` when the debug
string is NULL) and sets the pipeline to `GST_STATE_READY`.  It does not
touch `CustomData`. -/
def error_cb (m : ErrorMsg) (d : CustomData) : HandlerResult :=
  ⟨d, [.setState .Ready],
    [.errorReceived m.src m.message, .errorDebug (m.debugInfo.getD "none")]⟩

/-- `eos_cb`: prints a line and sets the pipeline to `GST_STATE_READY`. -/
def eos_cb (d : CustomData) : HandlerResult :=
  ⟨d, [.setState .Ready], [.eosReached]⟩

/-- `handoff_cb`: `data->last_pts = GST_BUFFER_PTS (buffer)`. -/
def handoff_cb (pts : Nat) (d : CustomData) : CustomData :=
  { d with last_pts := pts }

/-- Reinterpretation of a `guint64` value as a signed 64-bit integer. -/
def toSigned64 (n : Nat) : Int :=
  if n < 2 ^ 63 then (n : Int) else (n : Int) - 2 ^ 64

/-- `GST_CLOCK_DIFF (current, data->last_pts)`: the macro expands to
`(GstClockTimeDiff)((data->last_pts) - (current))`.  The subtraction is
performed in `guint64` (the `gint64` operand is converted, the difference
wraps modulo `2 ^ 64`) and the result is reinterpreted as `gint64`. -/
def clockDiff (current : Int) (lastPts : Nat) : Int :=
  toSigned64 ((((lastPts : Int) - current) % (2 ^ 64 : Int)).toNat)

/-- The figures printed by `update_timeinfo` on a successful position query:
`diff` in nanoseconds, and the printed millisecond representation
`diff / 1000000` (C division, toward zero) with fractional part
`(labs (diff) / 1000) % 1000`. -/
structure TimeReport where
  lastPts : Nat
  current : Int
  diff : Int
  msInt : Int
  msFrac : Nat
deriving DecidableEq, Repr

/-- Builds the `TimeReport` exactly as `update_timeinfo` computes it. -/
def mkTimeReport (lastPts : Nat) (current : Int) : TimeReport :=
  let diff := clockDiff current lastPts
  { lastPts := lastPts, current := current, diff := diff,
    msInt := Int.tdiv diff 1000000, msFrac := (diff.natAbs / 1000) % 1000 }

/-- Outcome of one run of `update_timeinfo`: whether
`gst_element_query_position` was invoked at all, and the printed report
(`none` when the handler returned before querying, or the query failed). -/
structure TimeInfoResult where
  queried : Bool
  report : Option TimeReport
deriving DecidableEq, Repr

/-- `update_timeinfo`: returns without doing anything while
`data->state < GST_STATE_PAUSED`; otherwise queries the playback position
(`queryPos` is the framework's answer) and, on success, prints the
difference between `data->last_pts` and the current position. -/
def update_timeinfo (queryPos : Option Int) (d : CustomData) : TimeInfoResult :=
  if d.state.toNat < GstState.Paused.toNat then ⟨false, none⟩
  else
    match queryPos with
    | none => ⟨true, none⟩
    | some current => ⟨true, some (mkTimeReport d.last_pts current)⟩

/-- Result of `state_changed_cb`: updated data, printed lines, and — when
the handler took the `old == READY && new == PAUSED` branch — the eager
`update_timeinfo` invocation it performed (`none` when the branch was not
taken). -/
structure StateChangedResult where
  data : CustomData
  logs : List LogLine
  tick : Option TimeInfoResult
deriving DecidableEq, Repr

/-- `state_changed_cb`: stores the new state in `data->state`, prints it,
and, exactly when `old == GST_STATE_READY && new == GST_STATE_PAUSED`,
calls `update_timeinfo` once immediately. -/
def state_changed_cb (old new pending : GstState) (queryPos : Option Int)
    (d : CustomData) : StateChangedResult :=
  let d' := { d with state := new }
  if old = .Ready ∧ new = .Paused then
    ⟨d', [.stateSet new], some (update_timeinfo queryPos d')⟩
  else
    ⟨d', [.stateSet new], none⟩

/-- Payload of a QoS bus message, as parsed by `gst_message_parse_qos`,
`gst_message_parse_qos_stats` and `gst_message_parse_qos_values`. -/
structure QosMsg where
  live : Bool
  running_time : Nat
  stream_time : Nat
  timestamp : Nat
  duration : Nat
  processed : Nat
  dropped : Nat
  jitter : Int
  quality : Int
deriving DecidableEq, Repr

/-- `qos_cb`: parses the message and prints one line with running time,
stream time, timestamp, duration, processed/dropped counts and jitter.
Nothing else happens. -/
def qos_cb (m : QosMsg) (d : CustomData) : HandlerResult :=
  ⟨d, [],
    [.qosInfo m.running_time m.stream_time m.timestamp m.duration
      m.processed m.dropped m.jitter]⟩

/-- The two possible returns of a `GstBusSyncHandler`:
`GST_BUS_PASS` (message continues to later handlers) or `GST_BUS_DROP`
(message consumed, unreferenced, never delivered further). -/
inductive BusSyncReply where
  | pass
  | drop
deriving DecidableEq, Repr

/-- A bus message as seen by the synchronous handler: its kind, and for
element messages the name of the contained structure. -/
inductive MsgKind where
  | error
  | eos
  | stateChanged
  | qos
  | element (structureName : String)
  | other
deriving DecidableEq, Repr

/-- A message on the pipeline bus, with its source element name. -/
structure BusMessage where
  kind : MsgKind
  src : String
deriving DecidableEq, Repr

/-- `gst_is_video_overlay_prepare_window_handle_message`: an element message
whose structure is named `"prepare-window-handle"`. -/
def isPrepareWindowHandle (m : BusMessage) : Bool :=
  match m.kind with
  | .element s => s == "prepare-window-handle"
  | _ => false

/-- `tell_window`, the synchronous bus handler: anything that is not a
prepare-window-handle element message is passed on untouched; a
prepare-window-handle message is answered by setting the captured
`data->window_handle` on the message's source element, after which the
message is unreferenced and dropped. -/
def tell_window (m : BusMessage) (d : CustomData) :
    BusSyncReply × List Command :=
  if isPrepareWindowHandle m then
    (.drop, [.setWindowHandle m.src d.window_handle])
  else
    (.pass, [])

/-- `rtsp_pad_added_cb`: retrieves the new pad's name and attempts
`gst_element_link_pads (element, name, depay, "sink")`; `linkSucceeds` is
the framework's answer.  On failure it prints one line.  It never posts an
error message and never changes any pipeline state. -/
def rtsp_pad_added_cb (linkSucceeds : Bool) (padName : String)
    (d : CustomData) : HandlerResult :=
  ⟨d, [.linkPads padName], if linkSucceeds then [] else [.padLinkFailed]⟩

/-- The environment's answers during pipeline construction: whether
`gst_element_factory_make` succeeds for a factory name, and whether
`gst_element_link` succeeds between two elements (identified here by their
factory names). -/
structure GstEnv where
  available : String → Bool
  linkOk : String → String → Bool

/-- A created element: its factory (capability tag) and its instance name. -/
structure Stage where
  factory : String
  name : String
deriving DecidableEq, Repr

/-- The pipeline returned by a successful `create_pipeline`: its name and
the elements added to the bin, in source order
(source, depay, decoder, identity, sink). -/
structure Pipeline where
  name : String
  stages : List Stage
deriving DecidableEq, Repr

/-- The five factory names `create_pipeline` instantiates, in order. -/
def requiredFactories : List String :=
  ["rtspsrc", "rtph264depay", "avdec_h264", "identity", "xvimagesink"]

/-- The three adjacent pairs linked statically by
`gst_element_link_many (depay, decoder, identity, sink, NULL)`. -/
def staticLinks : List (String × String) :=
  [("rtph264depay", "avdec_h264"), ("avdec_h264", "identity"),
    ("identity", "xvimagesink")]

/-- The suffixes written into the 64-byte name buffer after the prefix:
the pipeline name suffix and the five element name suffixes. -/
def stageNameSuffixes : List String :=
  ["videoplayer", "source", "depay", "decoder", "identity", "sink"]

/-- `create_pipeline`: guarded by `strlen (pipeline_prefix) < sizeof (buf)`
(buffer of 64 bytes).  Creates the pipeline and the five elements, naming
each `prefix ++ suffix`; configures the source (URL, credentials,
`latency = 20`, `ntp-time-source = 2`) and the sink (`qos`, `render-delay`)
— configuration is not observable here and is not modelled.  If any element
came back NULL, prints a warning and returns NULL.  Otherwise adds all five
to the bin, registers `rtsp_pad_added_cb` with the depayloader as target
and, if the static chain depay → decoder → identity → sink links, registers
`handoff_cb` on the identity and returns the pipeline; if linking fails it
prints a warning and returns NULL. -/
def create_pipeline (env : GstEnv) ( pfx url username password : String) :
    Option Pipeline :=
  if pfx.length < 64 then
    -- `gst_element_factory_make` is attempted for each factory; the C code
    -- then tests `if (rtp_source && depay && decoder && identity && sink)`,
    -- a conjunction of the five pointers being non-NULL.
    if env.available "rtspsrc" && env.available "rtph264depay"
        && env.available "avdec_h264" && env.available "identity"
        && env.available "xvimagesink" then
      -- `gst_element_link_many (depay, decoder, identity, sink, NULL)`
      if env.linkOk "rtph264depay" "avdec_h264"
          && env.linkOk "avdec_h264" "identity"
          && env.linkOk "identity" "xvimagesink" then
        some ⟨ pfx ++ "videoplayer",
          [⟨"rtspsrc", pfx ++ "source"⟩, ⟨"rtph264depay", pfx ++ "depay"⟩,
            ⟨"avdec_h264", pfx ++ "decoder"⟩,
            ⟨"identity", pfx ++ "identity"⟩,
            ⟨"xvimagesink", pfx ++ "sink"⟩]⟩
      else
        none
    else
      none
  else
    none

/-- Index of the last byte written by `strcpy (buf + offs, sfx)`:
the terminating NUL lands at `offs + sfx.length`. -/
def stageNameLastIndex (offs : Nat) (sfx : String) : Nat := offs + sfx.length

/-- All six `strcpy (buf + offs, suffix)` writes stay inside the 64-byte
buffer `buf`. -/
def stageNameWritesInBounds (offs : Nat) : Bool :=
  stageNameSuffixes.all (fun sfx => stageNameLastIndex offs sfx < 64)

/-- The startup sequence of `main` after `create_pipeline` succeeded:
`ret = gst_element_set_state (pipeline, GST_STATE_PLAYING)`; on
`GST_STATE_CHANGE_FAILURE` the process prints an error and exits (`none`);
on `GST_STATE_CHANGE_NO_PREROLL` it sets `data.is_live = TRUE`; in every
other case the data is untouched. -/
def main_after_start (ret : StateChangeReturn) (d : CustomData) :
    Option CustomData :=
  match ret with
  | .Failure => none
  | .NoPreroll => some { d with is_live := true }
  | _ => some d

/-- `handoff_cb` only stores the timestamp; the state field is untouched. -/
theorem handoff_cb_state (pts : Nat) (d : CustomData) :
    (handoff_cb pts d).state = d.state := rfl

/-- C3: handling an Error event leaves the pipeline in `Ready` no matter
what the state was beforehand (`error_cb` unconditionally issues
`gst_element_set_state (pipeline, GST_STATE_READY)`, a downward transition
that completes in the call), and the error message and debug info are
printed to the console log.  `CustomData` itself is untouched. -/
theorem error_cb_forces_ready_and_logs (m : ErrorMsg) (d : CustomData)
    (ps : GstState) :
    execCommands (error_cb m d).cmds ps = .Ready
    ∧ (error_cb m d).logs
        = [.errorReceived m.src m.message, .errorDebug (m.debugInfo.getD "none")]
    ∧ (error_cb m d).data = d :=
  ⟨rfl, rfl, rfl⟩

/-- C5: the dynamic pad linker attempts exactly one pad link and returns
normally; on failure it prints one non-fatal line; it never changes any
pipeline state and never posts an error message, and `CustomData` is
untouched. -/
theorem rtsp_pad_added_cb_nonfatal (linkSucceeds : Bool) (padName : String)
    (d : CustomData) :
    (rtsp_pad_added_cb linkSucceeds padName d).data = d
    ∧ (rtsp_pad_added_cb linkSucceeds padName d).cmds = [.linkPads padName]
    ∧ (rtsp_pad_added_cb linkSucceeds padName d).logs
        = (if linkSucceeds then [] else [.padLinkFailed])
    ∧ (∀ t, Command.setState t ∉ (rtsp_pad_added_cb linkSucceeds padName d).cmds)
    ∧ (∀ s, Command.postErrorMessage s ∉
        (rtsp_pad_added_cb linkSucceeds padName d).cmds) := by
  refine ⟨rfl, rfl, rfl, ?_, ?_⟩ <;> intro x <;> simp [rtsp_pad_added_cb]

/-- C9: the QoS handler mutates no session state: the `CustomData` it
returns is the one it received, it makes no pipeline calls, and its only
output is one diagnostics line carrying the message's values. -/
theorem qos_cb_pure_observation (m : QosMsg) (d : CustomData) :
    (qos_cb m d).data = d
    ∧ (qos_cb m d).cmds = []
    ∧ (qos_cb m d).logs
        = [.qosInfo m.running_time m.stream_time m.timestamp m.duration
            m.processed m.dropped m.jitter] :=
  ⟨rfl, rfl, rfl⟩

/-- C7: the synchronous bus handler answers a prepare-window-handle message
by setting the previously captured `window_handle` on the message's source
element and drops the message (no later handler sees it); every other
message is passed through with no action taken. -/
theorem tell_window_intercepts_only_prepare_window_handle (m : BusMessage)
    (d : CustomData) :
    (isPrepareWindowHandle m = true →
      tell_window m d = (.drop, [.setWindowHandle m.src d.window_handle]))
    ∧ (isPrepareWindowHandle m = false → tell_window m d = (.pass, [])) := by
  constructor <;> intro h <;> simp [tell_window, h]

/-- Witness for C7: a prepare-window-handle message from the sink is
answered with the captured handle 42 and dropped; a QoS message is passed
through. -/
theorem tell_window_intercepts_only_prepare_window_handle_witness :
    tell_window ⟨.element "prepare-window-handle", "input1-sink"⟩
        { initial_data with window_handle := 42 }
      = (.drop, [.setWindowHandle "input1-sink" 42])
    ∧ tell_window ⟨.qos, "input1-sink"⟩ { initial_data with window_handle := 42 }
      = (.pass, []) :=
  ⟨(tell_window_intercepts_only_prepare_window_handle
      ⟨.element "prepare-window-handle", "input1-sink"⟩
      { initial_data with window_handle := 42 }).1 (by decide),
   (tell_window_intercepts_only_prepare_window_handle
      ⟨.qos, "input1-sink"⟩
      { initial_data with window_handle := 42 }).2 (by decide)⟩

/-- C8: for every StateChanged event the handler stores `new` in
`data->state` and prints it; exactly when `old == READY && new == PAUSED`
it additionally performs one immediate `update_timeinfo` run on the
updated data (the body of the periodic tick), and otherwise it performs
none. -/
theorem state_changed_cb_updates_state_and_ticks (old new pending : GstState)
    (queryPos : Option Int) (d : CustomData) :
    (state_changed_cb old new pending queryPos d).data = { d with state := new }
    ∧ (state_changed_cb old new pending queryPos d).logs = [.stateSet new]
    ∧ (old = .Ready ∧ new = .Paused →
        (state_changed_cb old new pending queryPos d).tick
          = some (update_timeinfo queryPos { d with state := new }))
    ∧ (¬(old = .Ready ∧ new = .Paused) →
        (state_changed_cb old new pending queryPos d).tick = none) := by
  unfold state_changed_cb
  by_cases h : old = .Ready ∧ new = .Paused <;> simp [h]

/-- Witness for C8: a READY → PAUSED message triggers the eager tick, a
PAUSED → PLAYING message does not. -/
theorem state_changed_cb_updates_state_and_ticks_witness :
    (state_changed_cb .Ready .Paused .Playing (some 7) initial_data).tick
      = some (update_timeinfo (some 7) { initial_data with state := .Paused })
    ∧ (state_changed_cb .Paused .Playing .VoidPending (some 7)
        initial_data).tick = none :=
  ⟨(state_changed_cb_updates_state_and_ticks .Ready .Paused .Playing (some 7)
      initial_data).2.2.1 ⟨rfl, rfl⟩,
   (state_changed_cb_updates_state_and_ticks .Paused .Playing .VoidPending
      (some 7) initial_data).2.2.2 (by decide)⟩

/-- C6: `is_live` is `true` after startup exactly when
`gst_element_set_state (PLAYING)` returned `GST_STATE_CHANGE_NO_PREROLL`
(on `FAILURE` the process exits); on every other return the data — zeroed
by `memset`, so `is_live = false` — is left untouched; and no handler in
the program ever writes `is_live`, so once `true` it stays `true` for the
session's lifetime. -/
theorem is_live_set_once_and_persistent :
    (∀ d, main_after_start .NoPreroll d = some { d with is_live := true })
    ∧ (∀ d, main_after_start .Success d = some d)
    ∧ (∀ d, main_after_start .Async d = some d)
    ∧ (∀ d, main_after_start .Failure d = none)
    ∧ (∀ v d, (slider_cb v d).data.is_live = d.is_live)
    ∧ (∀ m d, (error_cb m d).data.is_live = d.is_live)
    ∧ (∀ d, (eos_cb d).data.is_live = d.is_live)
    ∧ (∀ pts d, (handoff_cb pts d).is_live = d.is_live)
    ∧ (∀ old new pending q d,
        (state_changed_cb old new pending q d).data.is_live = d.is_live)
    ∧ (∀ m d, (qos_cb m d).data.is_live = d.is_live)
    ∧ (∀ d, (play_cb d).data.is_live = d.is_live)
    ∧ (∀ d, (pause_cb d).data.is_live = d.is_live)
    ∧ (∀ d, (stop_cb d).data.is_live = d.is_live)
    ∧ (∀ h d, (realize_cb h d).is_live = d.is_live)
    ∧ (∀ b p d, (rtsp_pad_added_cb b p d).data.is_live = d.is_live) := by
  refine ⟨fun d => rfl, fun d => rfl, fun d => rfl, fun d => rfl,
    fun v d => rfl, fun m d => rfl, fun d => rfl, fun pts d => rfl,
    ?_, fun m d => rfl, fun d => rfl, fun d => rfl, fun d => rfl,
    fun h d => rfl, fun b p d => rfl⟩
  intro old new pending q d
  unfold state_changed_cb
  split <;> rfl

/-- An environment in which every factory is available and every link
succeeds. -/
def env0 : GstEnv := ⟨fun _ => true, fun _ _ => true⟩

/-- An environment in which the H.264 decoder factory is unregistered. -/
def envNoDecoder : GstEnv := ⟨fun f => !(f == "avdec_h264"), fun _ _ => true⟩

/-- The pipeline `create_pipeline env0 "cam1-" …` returns. -/
def p0 : Pipeline :=
  ⟨"cam1-videoplayer",
    [⟨"rtspsrc", "cam1-source"⟩, ⟨"rtph264depay", "cam1-depay"⟩,
      ⟨"avdec_h264", "cam1-decoder"⟩, ⟨"identity", "cam1-identity"⟩,
      ⟨"xvimagesink", "cam1-sink"⟩]⟩

/-- C4: `create_pipeline` is atomic in its failure modes: a pipeline is
returned only when every one of the five required factories was available
and every adjacent static link (depay → decoder → identity → sink)
succeeded, and the returned pipeline then contains exactly the five
stages; conversely, if any factory is unavailable, or any static link
fails, the function returns NULL and no partial pipeline reaches the
caller. -/
theorem create_pipeline_atomic (env : GstEnv)
    ( pfx url username password : String) :
    (∀ p, create_pipeline env pfx url username password = some p →
      (∀ f ∈ requiredFactories, env.available f = true)
      ∧ (∀ l ∈ staticLinks, env.linkOk l.1 l.2 = true)
      ∧ p.stages.map Stage.factory = requiredFactories
      ∧ p.stages.length = 5)
    ∧ ((∃ f ∈ requiredFactories, env.available f = false) →
        create_pipeline env pfx url username password = none)
    ∧ ((∃ l ∈ staticLinks, env.linkOk l.1 l.2 = false) →
        create_pipeline env pfx url username password = none) := by
  have main : ∀ p, create_pipeline env pfx url username password = some p →
      (∀ f ∈ requiredFactories, env.available f = true)
      ∧ (∀ l ∈ staticLinks, env.linkOk l.1 l.2 = true)
      ∧ p.stages.map Stage.factory = requiredFactories
      ∧ p.stages.length = 5 := by
    intro p h
    unfold create_pipeline at h
    by_cases hlen : pfx.length < 64
    case neg => rw [if_neg hlen] at h; exact absurd h (by simp)
    rw [if_pos hlen] at h
    by_cases havail : (env.available "rtspsrc" && env.available "rtph264depay"
        && env.available "avdec_h264" && env.available "identity"
        && env.available "xvimagesink") = true
    case neg => rw [if_neg havail] at h; exact absurd h (by simp)
    rw [if_pos havail] at h
    by_cases hlink : (env.linkOk "rtph264depay" "avdec_h264"
        && env.linkOk "avdec_h264" "identity"
        && env.linkOk "identity" "xvimagesink") = true
    case neg => rw [if_neg hlink] at h; exact absurd h (by simp)
    rw [if_pos hlink] at h
    injection h with h
    subst h
    simp only [Bool.and_eq_true] at havail hlink
    obtain ⟨⟨⟨⟨a1, a2⟩, a3⟩, a4⟩, a5⟩ := havail
    obtain ⟨⟨k1, k2⟩, k3⟩ := hlink
    refine ⟨?_, ?_, rfl, rfl⟩
    · intro f hf
      simp only [requiredFactories, List.mem_cons, List.not_mem_nil,
        or_false] at hf
      rcases hf with rfl | rfl | rfl | rfl | rfl <;> assumption
    · intro l hl
      simp only [staticLinks, List.mem_cons, List.not_mem_nil, or_false] at hl
      rcases hl with rfl | rfl | rfl <;> assumption
  refine ⟨main, ?_, ?_⟩
  · rintro ⟨f, hf, hfa⟩
    cases hcp : create_pipeline env pfx url username password with
    | none => rfl
    | some p =>
      have := (main p hcp).1 f hf
      rw [this] at hfa
      exact absurd hfa (by simp)
  · rintro ⟨l, hl, hla⟩
    cases hcp : create_pipeline env pfx url username password with
    | none => rfl
    | some p =>
      have := (main p hcp).2.1 l hl
      rw [this] at hla
      exact absurd hla (by simp)

/-- Witness for C4: with every factory available and every link succeeding,
the build with prefix `"cam1-"` yields the full five-stage pipeline `p0`;
with the decoder factory unregistered, the build returns NULL. -/
theorem create_pipeline_atomic_witness :
    ((∀ f ∈ requiredFactories, env0.available f = true)
      ∧ (∀ l ∈ staticLinks, env0.linkOk l.1 l.2 = true)
      ∧ p0.stages.map Stage.factory = requiredFactories
      ∧ p0.stages.length = 5)
    ∧ create_pipeline envNoDecoder "cam1-" "rtsp://host/stream" "root" "pass"
        = none :=
  ⟨(create_pipeline_atomic env0 "cam1-" "rtsp://host/stream" "root" "pass").1
      p0 (by decide),
   (create_pipeline_atomic envNoDecoder "cam1-" "rtsp://host/stream" "root"
      "pass").2.1 ⟨"avdec_h264", by decide, by decide⟩⟩

/-- A session that has reached PLAYING. -/
def d_play : CustomData := { initial_data with state := .Playing }

/-- Counterexample to C2: after a frame handoff with timestamp T = 0 and a
successful position query returning P = 1000000 ns, the diagnostic delta
the code computes (`GST_CLOCK_DIFF (current, data->last_pts)`) is
`-1000000` = T − P, not `P − T = 1000000` as the claim states. -/
theorem update_timeinfo_delta_counterexample :
    update_timeinfo (some 1000000) (handoff_cb 0 d_play)
      = ⟨true, some (mkTimeReport 0 1000000)⟩
    ∧ (mkTimeReport 0 1000000).diff = -1000000
    ∧ ((1000000 : Int) - 0) ≠ -1000000 :=
  ⟨by decide, by decide, by decide⟩

/-- When the wrapped difference fits in a signed 64-bit value, `clockDiff`
is exactly `lastPts - current`. -/
theorem clockDiff_eq_sub (current : Int) (lastPts : Nat)
    (hlo : -(2 ^ 63) ≤ (lastPts : Int) - current)
    (hhi : (lastPts : Int) - current < 2 ^ 63) :
    clockDiff current lastPts = (lastPts : Int) - current := by
  unfold clockDiff toSigned64
  split <;> omega

/-- C2 (amended): after a frame handoff with timestamp T and a subsequent
successful position query returning P, if the session has reached at least
PAUSED (otherwise the routine returns before querying) and T − P fits in a
signed 64-bit value, the periodic diagnostic routine reports the signed
delta T − P — the last handoff timestamp minus the current position, the
opposite sign of the claim — in nanoseconds, printed as milliseconds via
truncating division. -/
theorem update_timeinfo_reports_lastPts_minus_position
    (d : CustomData) (pts : Nat) (P : Int)
    (hs : GstState.Paused.toNat ≤ d.state.toNat)
    (hlo : -(2 ^ 63) ≤ (pts : Int) - P)
    (hhi : (pts : Int) - P < 2 ^ 63) :
    update_timeinfo (some P) (handoff_cb pts d)
      = ⟨true, some (mkTimeReport pts P)⟩
    ∧ (mkTimeReport pts P).diff = (pts : Int) - P
    ∧ (mkTimeReport pts P).msInt = Int.tdiv ((pts : Int) - P) 1000000 := by
  have hdiff : clockDiff P pts = (pts : Int) - P := clockDiff_eq_sub P pts hlo hhi
  refine ⟨?_, ?_, ?_⟩
  · unfold update_timeinfo
    rw [handoff_cb_state]
    rw [if_neg (Nat.not_lt.mpr hs)]
    rfl
  · simp only [mkTimeReport, hdiff]
  · simp only [mkTimeReport, hdiff]

/-- Witness for C2 (amended): at T = 5000000000 ns and P = 4000000000 ns
from the PLAYING state, the reported delta is 1000000000 ns = T − P. -/
theorem update_timeinfo_reports_lastPts_minus_position_witness :
    update_timeinfo (some 4000000000) (handoff_cb 5000000000 d_play)
      = ⟨true, some (mkTimeReport 5000000000 4000000000)⟩
    ∧ (mkTimeReport 5000000000 4000000000).diff
      = (5000000000 : Int) - 4000000000 :=
  ⟨(update_timeinfo_reports_lastPts_minus_position d_play 5000000000
      4000000000 (by decide) (by decide) (by decide)).1,
   (update_timeinfo_reports_lastPts_minus_position d_play 5000000000
      4000000000 (by decide) (by decide) (by decide)).2.1⟩

/-- A live session in the PLAYING state (`is_live` was set by the
NO_PREROLL return at startup). -/
def d_live : CustomData :=
  { initial_data with is_live := true, state := .Playing }

/-- Evaluation of C1 at the failing input: on a session with
`is_live = true`, moving the slider to value 5 still makes `slider_cb`
issue `gst_element_seek_simple` for position 5 seconds — the handler
contains no `is_live` check at all, so the seek request reaches the
pipeline on a live source. -/
theorem slider_cb_seeks_even_when_live :
    d_live.is_live = true
    ∧ (slider_cb 5 d_live).cmds = [Command.seekSimple 5000000000]
    ∧ (slider_cb 5 d_live).data = d_live := by
  refine ⟨rfl, ?_, rfl⟩
  simp only [slider_cb, List.cons.injEq, and_true, Command.seekSimple.injEq]
  norm_num [ratTrunc, gstSecond]

/-- A prefix of 53 characters: accepted by the guard
`strlen (pipeline_prefix) < sizeof (buf)` yet long enough that writing the
longest suffix overflows the buffer. -/
def overflow53 : String := String.mk (List.replicate 53 'a')

/-- A prefix of 64 characters, rejected by the guard. -/
def overflow64 : String := String.mk (List.replicate 64 'a')

/-- Evaluation of C10 at the failing input: a 53-character prefix passes
the `< 64` guard (so `create_pipeline` proceeds and builds the pipeline),
yet `strcpy (buf + 53, "videoplayer")` puts its terminating NUL at byte
index 53 + 11 = 64 — one past the end of the 64-byte `buf` — so not every
stage-name write stays in bounds.  The second half of the claim does hold:
a 64-character prefix is rejected and nothing is constructed. -/
theorem create_pipeline_name_buffer_overflow :
    overflow53.length = 53
    ∧ overflow53.length < 64
    ∧ stageNameWritesInBounds 53 = false
    ∧ stageNameLastIndex 53 "videoplayer" = 64
    ∧ create_pipeline env0 overflow53 "rtsp://host/stream" "root" "pass" ≠ none
    ∧ create_pipeline env0 overflow64 "rtsp://host/stream" "root" "pass"
        = none :=
  ⟨by decide, by decide, by decide, by decide, by decide, by decide⟩
